import Mathlib

/- Shallow embedding of the billing core of openai-billing-monitor:
   src/openai_billing/models/billing_models.py and
   src/openai_billing/core/billing_monitor.py.
   Python floats are modelled as exact rationals (the spec mandates decimal
   arithmetic), Python ints as ℤ (token counters can receive negative inputs)
   or ℕ (request counters, which only ever receive +1 or reset-to-0),
   `datetime` as a calendar date (only `.date()`, `.year`, `.month` are ever
   compared by the code), and `Optional[...]` as `Option`.  Python truthiness
   of an `Optional[float]`/`Optional[int]` limit (`if self.thresholds.x:`) is
   `false` exactly for `None` and `0`, which the embedding spells as a match
   on the option followed by a zero test. -/

namespace OpenAIBilling

/-- Calendar timestamp standing for a Python `datetime`.  The billing code
only ever compares `.date()` (lexicographic on year, month, day) and the
`.year`/`.month` components, so day precision is a faithful model. -/
structure DateTime where
  year : ℤ
  month : ℤ
  day : ℤ
deriving DecidableEq

/-- Python `a.date() < b.date()`: lexicographic comparison of calendar dates. -/
def dateLt (a b : DateTime) : Bool :=
  decide (a.year < b.year) ||
    (decide (a.year = b.year) &&
      (decide (a.month < b.month) ||
        (decide (a.month = b.month) && decide (a.day < b.day))))

/-- Stand-in for `datetime.now()` used as a pydantic `default_factory`; the
concrete value is irrelevant to every counter-level property. -/
def epoch : DateTime := ⟨1970, 1, 1⟩

/-- `ModelConfig` from billing_models.py: per-1000-token prices for a model. -/
structure ModelConfig where
  name : String
  input_token_price : ℚ
  output_token_price : ℚ
  max_tokens : Option ℤ := none
deriving DecidableEq

/-- `ThresholdConfig` from billing_models.py. -/
structure ThresholdConfig where
  daily_cost_limit : Option ℚ := none
  monthly_cost_limit : Option ℚ := none
  daily_token_limit : Option ℤ := none
  monthly_token_limit : Option ℤ := none
  warning_threshold : ℚ := 8 / 10
deriving DecidableEq

/-- `UsageStats` from billing_models.py. -/
structure UsageStats where
  total_input_tokens : ℤ := 0
  total_output_tokens : ℤ := 0
  total_cost : ℚ := 0
  daily_input_tokens : ℤ := 0
  daily_output_tokens : ℤ := 0
  daily_cost : ℚ := 0
  monthly_input_tokens : ℤ := 0
  monthly_output_tokens : ℤ := 0
  monthly_cost : ℚ := 0
  last_reset_date : DateTime := epoch
  last_daily_reset : DateTime := epoch
  last_monthly_reset : DateTime := epoch
  request_count : ℕ := 0
  total_requests : ℕ := 0
  daily_requests : ℕ := 0
  monthly_requests : ℕ := 0
deriving DecidableEq

/-- `UsageStats.reset_daily_stats`; `now` stands for the internal
`datetime.now()` call. -/
def resetDailyStats (now : DateTime) (s : UsageStats) : UsageStats :=
  { s with
    daily_input_tokens := 0
    daily_output_tokens := 0
    daily_cost := 0
    daily_requests := 0
    last_daily_reset := now }

/-- `UsageStats.reset_monthly_stats`. -/
def resetMonthlyStats (now : DateTime) (s : UsageStats) : UsageStats :=
  { s with
    monthly_input_tokens := 0
    monthly_output_tokens := 0
    monthly_cost := 0
    monthly_requests := 0
    last_monthly_reset := now }

/-- `UsageStats.reset_all_stats` (the prior state is entirely overwritten). -/
def resetAllStats (now : DateTime) (_s : UsageStats) : UsageStats :=
  { total_input_tokens := 0
    total_output_tokens := 0
    total_cost := 0
    daily_input_tokens := 0
    daily_output_tokens := 0
    daily_cost := 0
    monthly_input_tokens := 0
    monthly_output_tokens := 0
    monthly_cost := 0
    request_count := 0
    total_requests := 0
    daily_requests := 0
    monthly_requests := 0
    last_reset_date := now
    last_daily_reset := now
    last_monthly_reset := now }

/-- `BillingConfig` from billing_models.py.  The `Dict[str, ModelConfig]` is
modelled as an association list looked up with `List.lookup`; `auto_save` and
`config_file_path` only drive file I/O, which is outside the embedded core. -/
structure BillingConfig where
  models : List (String × ModelConfig) := []
  thresholds : ThresholdConfig := {}
  usage_stats : UsageStats := {}
  enabled : Bool := true
deriving DecidableEq

/-- `BillingConfig.get_model_config`. -/
def getModelConfig (c : BillingConfig) (model_name : String) : Option ModelConfig :=
  c.models.lookup model_name

/-- `BillingConfig.calculate_cost`: `(input/1000)*p_in + (output/1000)*p_out`,
`0.0` for an unknown model (a pydantic model instance is always truthy, so
`if not model_config` tests exactly for `None`). -/
def calculateCost (c : BillingConfig) (model_name : String)
    (input_tokens output_tokens : ℤ) : ℚ :=
  match getModelConfig c model_name with
  | none => 0
  | some mc =>
      (input_tokens : ℚ) / 1000 * mc.input_token_price +
        (output_tokens : ℚ) / 1000 * mc.output_token_price

/-- The counter increments performed by `BillingConfig.update_usage`. -/
def addUsage (s : UsageStats) (input_tokens output_tokens : ℤ) (cost : ℚ) :
    UsageStats :=
  { s with
    total_input_tokens := s.total_input_tokens + input_tokens
    total_output_tokens := s.total_output_tokens + output_tokens
    total_cost := s.total_cost + cost
    request_count := s.request_count + 1
    total_requests := s.total_requests + 1
    daily_input_tokens := s.daily_input_tokens + input_tokens
    daily_output_tokens := s.daily_output_tokens + output_tokens
    daily_cost := s.daily_cost + cost
    daily_requests := s.daily_requests + 1
    monthly_input_tokens := s.monthly_input_tokens + input_tokens
    monthly_output_tokens := s.monthly_output_tokens + output_tokens
    monthly_cost := s.monthly_cost + cost
    monthly_requests := s.monthly_requests + 1 }

/-- `BillingConfig.update_usage`: price the commit, add it to lifetime, daily
and monthly counters, return the updated config together with the cost. -/
def updateUsage (c : BillingConfig) (model_name : String)
    (input_tokens output_tokens : ℤ) : BillingConfig × ℚ :=
  let cost := calculateCost c model_name input_tokens output_tokens
  ({ c with usage_stats := addUsage c.usage_stats input_tokens output_tokens cost },
    cost)

/-- `BillingConfig.check_daily_reset`: roll the daily window when `now`'s
calendar date is strictly after the last daily reset's date. -/
def checkDailyReset (now : DateTime) (c : BillingConfig) : BillingConfig :=
  if dateLt c.usage_stats.last_daily_reset now then
    { c with usage_stats := resetDailyStats now c.usage_stats }
  else c

/-- The condition of `BillingConfig.check_monthly_reset`:
`now.year > last.year or now.month > last.month`, exactly as written. -/
def monthRollCond (now last : DateTime) : Bool :=
  decide (last.year < now.year) || decide (last.month < now.month)

/-- `BillingConfig.check_monthly_reset`. -/
def checkMonthlyReset (now : DateTime) (c : BillingConfig) : BillingConfig :=
  if monthRollCond now c.usage_stats.last_monthly_reset then
    { c with usage_stats := resetMonthlyStats now c.usage_stats }
  else c

/-- The keys that `BillingConfig.check_thresholds` can insert into its
result dict. -/
inductive Signal where
  | dailyCostExceeded
  | dailyCostWarning
  | dailyTokenExceeded
  | dailyTokenWarning
  | monthlyCostExceeded
  | monthlyCostWarning
  | monthlyTokenExceeded
  | monthlyTokenWarning
deriving DecidableEq

/-- Daily-cost block of `check_thresholds`.  `if self.thresholds.daily_cost_limit:`
skips the block for `None` and for a `0` limit (Python truthiness). -/
def dailyCostSignals (t : ThresholdConfig) (s : UsageStats) : List Signal :=
  match t.daily_cost_limit with
  | none => []
  | some l =>
      if l = 0 then []
      else if s.daily_cost ≥ l then [.dailyCostExceeded]
      else if s.daily_cost ≥ l * t.warning_threshold then [.dailyCostWarning]
      else []

/-- Daily-token block of `check_thresholds` (daily input + output tokens). -/
def dailyTokenSignals (t : ThresholdConfig) (s : UsageStats) : List Signal :=
  match t.daily_token_limit with
  | none => []
  | some l =>
      if l = 0 then []
      else if s.daily_input_tokens + s.daily_output_tokens ≥ l then
        [.dailyTokenExceeded]
      else if ((s.daily_input_tokens + s.daily_output_tokens : ℤ) : ℚ) ≥
          (l : ℚ) * t.warning_threshold then [.dailyTokenWarning]
      else []

/-- Monthly-cost block of `check_thresholds`. -/
def monthlyCostSignals (t : ThresholdConfig) (s : UsageStats) : List Signal :=
  match t.monthly_cost_limit with
  | none => []
  | some l =>
      if l = 0 then []
      else if s.monthly_cost ≥ l then [.monthlyCostExceeded]
      else if s.monthly_cost ≥ l * t.warning_threshold then [.monthlyCostWarning]
      else []

/-- Monthly-token block of `check_thresholds`. -/
def monthlyTokenSignals (t : ThresholdConfig) (s : UsageStats) : List Signal :=
  match t.monthly_token_limit with
  | none => []
  | some l =>
      if l = 0 then []
      else if s.monthly_input_tokens + s.monthly_output_tokens ≥ l then
        [.monthlyTokenExceeded]
      else if ((s.monthly_input_tokens + s.monthly_output_tokens : ℤ) : ℚ) ≥
          (l : ℚ) * t.warning_threshold then [.monthlyTokenWarning]
      else []

/-- `BillingConfig.check_thresholds`: the four blocks run in source order
(daily cost, daily token, monthly cost, monthly token); the insertion order
of the Python dict is modelled by list concatenation. -/
def checkThresholds (t : ThresholdConfig) (s : UsageStats) : List Signal :=
  dailyCostSignals t s ++ dailyTokenSignals t s ++
    monthlyCostSignals t s ++ monthlyTokenSignals t s

/-- Whether a signal is one of the `*_exceeded` dict keys. -/
def Signal.isExceeded : Signal → Bool
  | .dailyCostExceeded => true
  | .dailyTokenExceeded => true
  | .monthlyCostExceeded => true
  | .monthlyTokenExceeded => true
  | _ => false

/-- `exceeded_types[0]` in `BillingMonitor._handle_threshold_warnings`:
the first `*_exceeded` key in dict order. -/
def firstExceeded (ws : List Signal) : Option Signal :=
  (ws.filter Signal.isExceeded).head?

/-- Exceptions of core/exceptions.py that the embedded operations can raise.
`thresholdExceeded` carries `threshold_type`, `current_value`, `limit_value`
(token counts are Python numbers, injected into ℚ). -/
inductive BillingError where
  | thresholdExceeded (threshold_type : String) (current_value limit_value : ℚ)
  | modelNotConfigured (model_name : String)
deriving DecidableEq

/-- The `usage_info` dict built by `BillingMonitor.track_usage` (without the
wall-clock timestamp string, which no claim mentions). -/
structure UsageInfo where
  model_name : String
  input_tokens : ℤ
  output_tokens : ℤ
  cost : ℚ
  total_cost : ℚ
  daily_cost : ℚ
  monthly_cost : ℚ
  warnings : List Signal
deriving DecidableEq

/-- Result of `track_usage`: the early-return `{"enabled": False}` dict or
the full usage-info dict. -/
inductive TrackResult where
  | disabled
  | tracked (info : UsageInfo)
deriving DecidableEq

/-- The raising half of `BillingMonitor._handle_threshold_warnings`: pick the
first `*_exceeded` warning and build the matching `ThresholdExceededException`.
`c` is the monitor's post-commit config (`self._config` at raise time); the
`getD 0` reads the configured limit, which the guard that emitted the signal
guarantees to be present.  `UserWarning`s and callbacks are I/O-free of
ledger effects and are not modelled. -/
def handleThresholdWarnings (c : BillingConfig) (ws : List Signal)
    (info : UsageInfo) : Option BillingError :=
  match firstExceeded ws with
  | some .dailyCostExceeded =>
      some (.thresholdExceeded "daily_cost" info.daily_cost
        (c.thresholds.daily_cost_limit.getD 0))
  | some .monthlyCostExceeded =>
      some (.thresholdExceeded "monthly_cost" info.monthly_cost
        (c.thresholds.monthly_cost_limit.getD 0))
  | some .dailyTokenExceeded =>
      some (.thresholdExceeded "daily_token"
        ((c.usage_stats.daily_input_tokens + c.usage_stats.daily_output_tokens : ℤ) : ℚ)
        ((c.thresholds.daily_token_limit.getD 0 : ℤ) : ℚ))
  | some .monthlyTokenExceeded =>
      some (.thresholdExceeded "monthly_token"
        ((c.usage_stats.monthly_input_tokens + c.usage_stats.monthly_output_tokens : ℤ) : ℚ)
        ((c.thresholds.monthly_token_limit.getD 0 : ℤ) : ℚ))
  | _ => none

/-- Tail of `track_usage`: `_handle_threshold_warnings` either raises the
first exceeded threshold as an error or lets the call return its usage info;
either way the monitor keeps the post-commit config `c2`. -/
def raiseOr (c2 : BillingConfig) (ws : List Signal) (info : UsageInfo) :
    BillingConfig × Except BillingError TrackResult :=
  match handleThresholdWarnings c2 ws info with
  | some e => (c2, Except.error e)
  | none => (c2, Except.ok (TrackResult.tracked info))

/-- `BillingMonitor.track_usage`.  The returned config is the monitor's
`self._config` after the call — also when a `ThresholdExceededException` is
raised, since the commit happens before the threshold check (committed-then-
rejected).  `auto_save` and the observer callbacks are file/logging I/O with
no ledger effect and are not modelled. -/
def trackUsage (now : DateTime) (c : BillingConfig) (model_name : String)
    (input_tokens output_tokens : ℤ) :
    BillingConfig × Except BillingError TrackResult :=
  if c.enabled = false then (c, .ok .disabled)
  else if (getModelConfig c model_name).isNone && !c.models.isEmpty then
    (c, .error (.modelNotConfigured model_name))
  else
    let c1 := checkMonthlyReset now (checkDailyReset now c)
    let p := updateUsage c1 model_name input_tokens output_tokens
    let c2 := p.1
    let ws := checkThresholds c2.thresholds c2.usage_stats
    let info : UsageInfo :=
      { model_name := model_name
        input_tokens := input_tokens
        output_tokens := output_tokens
        cost := p.2
        total_cost := c2.usage_stats.total_cost
        daily_cost := c2.usage_stats.daily_cost
        monthly_cost := c2.usage_stats.monthly_cost
        warnings := ws }
    raiseOr c2 ws info

/-- One entry of the `warnings` list built by `check_limits_before_request`
(token counts injected into ℚ; the `message` string is presentation only). -/
structure CheckWarning where
  type : String
  current : ℚ
  projected : ℚ
  limit : ℚ
deriving DecidableEq

/-- The result dict of `check_limits_before_request` on the enabled path. -/
structure CheckResult where
  allowed : Bool
  warnings : List CheckWarning
  estimated_cost : ℚ
deriving DecidableEq

/-- Result of `check_limits_before_request`: the early-return
`{"allowed": True, "enabled": False}` dict or the full result. -/
inductive CheckOutcome where
  | disabled
  | checked (r : CheckResult)
deriving DecidableEq

/-- Daily-cost block of `check_limits_before_request`, reading
`thresholds.daily_cost_limit` (passed as `limit`): note the strict `>`
comparison on the projected value (commit-time evaluation uses `>=`). -/
def checkDailyCostLimit (limit : Option ℚ) (s : UsageStats)
    (estimated_cost : ℚ) (acc : Bool × List CheckWarning) :
    Bool × List CheckWarning :=
  match limit with
  | none => acc
  | some l =>
      if l = 0 then acc
      else
        let projected := s.daily_cost + estimated_cost
        if projected > l then
          (false, acc.2 ++ [{ type := "daily_cost_limit", current := s.daily_cost, projected := projected, limit := l }])
        else acc

/-- Monthly-cost block of `check_limits_before_request`, reading
`thresholds.monthly_cost_limit`. -/
def checkMonthlyCostLimit (limit : Option ℚ) (s : UsageStats)
    (estimated_cost : ℚ) (acc : Bool × List CheckWarning) :
    Bool × List CheckWarning :=
  match limit with
  | none => acc
  | some l =>
      if l = 0 then acc
      else
        let projected := s.monthly_cost + estimated_cost
        if projected > l then
          (false, acc.2 ++ [{ type := "monthly_cost_limit", current := s.monthly_cost, projected := projected, limit := l }])
        else acc

/-- Daily-token block of `check_limits_before_request`, reading
`thresholds.daily_token_limit`. -/
def checkDailyTokenLimit (limit : Option ℤ) (s : UsageStats)
    (estimated_tokens : ℤ) (acc : Bool × List CheckWarning) :
    Bool × List CheckWarning :=
  match limit with
  | none => acc
  | some l =>
      if l = 0 then acc
      else
        let current := s.daily_input_tokens + s.daily_output_tokens
        let projected := current + estimated_tokens
        if projected > l then
          (false, acc.2 ++ [{ type := "daily_token_limit", current := (current : ℚ), projected := (projected : ℚ), limit := (l : ℚ) }])
        else acc

/-- Monthly-token block of `check_limits_before_request`, reading
`thresholds.monthly_token_limit`. -/
def checkMonthlyTokenLimit (limit : Option ℤ) (s : UsageStats)
    (estimated_tokens : ℤ) (acc : Bool × List CheckWarning) :
    Bool × List CheckWarning :=
  match limit with
  | none => acc
  | some l =>
      if l = 0 then acc
      else
        let current := s.monthly_input_tokens + s.monthly_output_tokens
        let projected := current + estimated_tokens
        if projected > l then
          (false, acc.2 ++ [{ type := "monthly_token_limit", current := (current : ℚ), projected := (projected : ℚ), limit := (l : ℚ) }])
        else acc

/-- `BillingMonitor.check_limits_before_request`.  The method body contains no
`raise` and no assignment to the ledger, so the embedding always returns
`Except.ok` and hands back the config unchanged; `estimate_cost` is
`calculate_cost(model, estimated_tokens, 0)` (its `None` fallback is dead
code, `calculate_cost` always returns a number). -/
def checkLimitsBeforeRequest (c : BillingConfig) (model_name : String)
    (estimated_tokens : ℤ) :
    Except BillingError CheckOutcome × BillingConfig :=
  if c.enabled = false then (.ok .disabled, c)
  else
    let estimated_cost := calculateCost c model_name estimated_tokens 0
    let s := c.usage_stats
    let t := c.thresholds
    let acc1 := checkDailyCostLimit t.daily_cost_limit s estimated_cost (true, [])
    let acc2 := checkMonthlyCostLimit t.monthly_cost_limit s estimated_cost acc1
    let acc3 := checkDailyTokenLimit t.daily_token_limit s estimated_tokens acc2
    let acc4 := checkMonthlyTokenLimit t.monthly_token_limit s estimated_tokens acc3
    (.ok (.checked { allowed := acc4.1, warnings := acc4.2, estimated_cost := estimated_cost }), c)

/-- Config state of `track_usage` after both window-roll checks. -/
def rolledConfig (now : DateTime) (c : BillingConfig) : BillingConfig :=
  checkMonthlyReset now (checkDailyReset now c)

/-- Config state of `track_usage` right after the commit increment (the
post-commit ledger that the threshold evaluation scores). -/
def postCommitConfig (now : DateTime) (c : BillingConfig) (model_name : String)
    (input_tokens output_tokens : ℤ) : BillingConfig :=
  (updateUsage (rolledConfig now c) model_name input_tokens output_tokens).1

/-- The cost priced for the commit inside `track_usage`. -/
def commitCost (now : DateTime) (c : BillingConfig) (model_name : String)
    (input_tokens output_tokens : ℤ) : ℚ :=
  (updateUsage (rolledConfig now c) model_name input_tokens output_tokens).2

/-- The threshold signals that `track_usage` evaluates on the post-commit
ledger. -/
def postSignals (now : DateTime) (c : BillingConfig) (model_name : String)
    (input_tokens output_tokens : ℤ) : List Signal :=
  checkThresholds (postCommitConfig now c model_name input_tokens output_tokens).thresholds
    (postCommitConfig now c model_name input_tokens output_tokens).usage_stats

/-- Catalog entry of end-to-end scenarios A and B: model `m`, input price
`0.002` and output price `0.004` per 1000 tokens. -/
def modelM : ModelConfig :=
  { name := "m", input_token_price := 2 / 1000, output_token_price := 4 / 1000 }

/-- Config with only model `m` in the catalog and no limits configured. -/
def cfgM : BillingConfig := { models := [("m", modelM)] }

lemma dateLt_irrefl (d : DateTime) : dateLt d d = false := by
  simp [dateLt]

lemma monthRollCond_self (d : DateTime) : monthRollCond d d = false := by
  simp [monthRollCond]

/-- C9: applying `check_daily_reset` twice at the same `now` produces the same
state as applying it once, and likewise for `check_monthly_reset`. -/
theorem roll_idempotent (now : DateTime) (c : BillingConfig) :
    checkDailyReset now (checkDailyReset now c) = checkDailyReset now c ∧
    checkMonthlyReset now (checkMonthlyReset now c) = checkMonthlyReset now c := by
  constructor
  · by_cases h : dateLt c.usage_stats.last_daily_reset now
    · simp [checkDailyReset, h, resetDailyStats, dateLt_irrefl]
    · simp [checkDailyReset, h]
  · by_cases h : monthRollCond now c.usage_stats.last_monthly_reset
    · simp [checkMonthlyReset, h, resetMonthlyStats, monthRollCond_self]
    · simp [checkMonthlyReset, h]

/-- C7: `check_limits_before_request` leaves the entire usage ledger unchanged:
the config — every lifetime, daily and monthly counter and all three reset
timestamps included — comes back exactly as it went in. -/
theorem check_frame (c : BillingConfig) (model_name : String)
    (estimated_tokens : ℤ) :
    (checkLimitsBeforeRequest c model_name estimated_tokens).2 = c := by
  unfold checkLimitsBeforeRequest
  split <;> rfl

/-- C6: `calculate_cost` returns
`(input/1000) * input_price + (output/1000) * output_price` for a model in the
catalog and `0` for an absent model id; with input price `0.002` and output
price `0.004` per 1000 units, `calculate_cost("m", 1000, 500) = 0.004`. -/
theorem calculateCost_spec :
    (∀ (c : BillingConfig) (model_name : String) (i o : ℤ),
      (getModelConfig c model_name = none → calculateCost c model_name i o = 0) ∧
      ∀ mc, getModelConfig c model_name = some mc →
        calculateCost c model_name i o =
          (i : ℚ) / 1000 * mc.input_token_price +
            (o : ℚ) / 1000 * mc.output_token_price) ∧
    calculateCost cfgM "m" 1000 500 = 0.004 := by
  refine ⟨fun c model_name i o => ⟨fun h => by simp [calculateCost, h],
    fun mc h => by simp [calculateCost, h]⟩, ?_⟩
  have h : getModelConfig cfgM "m" = some modelM := rfl
  simp only [calculateCost, h, modelM]
  norm_num

/-- Witness for C6: the pricing formula and the unknown-model fallback
evaluated at the scenario-A catalog. -/
theorem calculateCost_spec_witness :
    calculateCost cfgM "m" 1000 500 =
      (1000 : ℚ) / 1000 * modelM.input_token_price +
        (500 : ℚ) / 1000 * modelM.output_token_price ∧
    calculateCost cfgM "absent" 3 4 = 0 := by
  constructor
  · exact (calculateCost_spec.1 cfgM "m" 1000 500).2 modelM rfl
  · exact (calculateCost_spec.1 cfgM "absent" 3 4).1 rfl

lemma calculateCost_mk (ms : List (String × ModelConfig)) (t : ThresholdConfig)
    (s : UsageStats) (e : Bool) (model_name : String) (i o : ℤ) :
    calculateCost ⟨ms, t, s, e⟩ model_name i o =
      calculateCost ⟨ms, {}, {}, true⟩ model_name i o := rfl

/-- C10: a limit configured as `0` behaves exactly like an unconfigured
(`None`) limit at the public interface: `check_thresholds` emits the same
signals and `check_limits_before_request` returns the same result, so a zero
limit never blocks or flags any usage. -/
theorem zero_limit_like_none :
    (∀ (t : ThresholdConfig) (s : UsageStats),
      checkThresholds { t with daily_cost_limit := some 0 } s =
        checkThresholds { t with daily_cost_limit := none } s ∧
      checkThresholds { t with monthly_cost_limit := some 0 } s =
        checkThresholds { t with monthly_cost_limit := none } s ∧
      checkThresholds { t with daily_token_limit := some 0 } s =
        checkThresholds { t with daily_token_limit := none } s ∧
      checkThresholds { t with monthly_token_limit := some 0 } s =
        checkThresholds { t with monthly_token_limit := none } s) ∧
    (∀ (c : BillingConfig) (model_name : String) (tk : ℤ),
      (checkLimitsBeforeRequest { c with thresholds := { c.thresholds with daily_cost_limit := some 0 } } model_name tk).1 =
        (checkLimitsBeforeRequest { c with thresholds := { c.thresholds with daily_cost_limit := none } } model_name tk).1 ∧
      (checkLimitsBeforeRequest { c with thresholds := { c.thresholds with monthly_cost_limit := some 0 } } model_name tk).1 =
        (checkLimitsBeforeRequest { c with thresholds := { c.thresholds with monthly_cost_limit := none } } model_name tk).1 ∧
      (checkLimitsBeforeRequest { c with thresholds := { c.thresholds with daily_token_limit := some 0 } } model_name tk).1 =
        (checkLimitsBeforeRequest { c with thresholds := { c.thresholds with daily_token_limit := none } } model_name tk).1 ∧
      (checkLimitsBeforeRequest { c with thresholds := { c.thresholds with monthly_token_limit := some 0 } } model_name tk).1 =
        (checkLimitsBeforeRequest { c with thresholds := { c.thresholds with monthly_token_limit := none } } model_name tk).1) := by
  constructor
  · intro t s
    refine ⟨?_, ?_, ?_, ?_⟩ <;>
      simp [checkThresholds, dailyCostSignals, dailyTokenSignals,
        monthlyCostSignals, monthlyTokenSignals]
  · intro c model_name tk
    cases hc : c.enabled
    · refine ⟨?_, ?_, ?_, ?_⟩ <;> simp [checkLimitsBeforeRequest, hc]
    · refine ⟨?_, ?_, ?_, ?_⟩ <;>
        simp [checkLimitsBeforeRequest, hc, checkDailyCostLimit,
          checkMonthlyCostLimit, checkDailyTokenLimit, checkMonthlyTokenLimit,
          calculateCost_mk]

lemma mem_dailyCostSignals (t : ThresholdConfig) (s : UsageStats) (sig : Signal) :
    sig ∈ dailyCostSignals t s ↔
      ∃ l, t.daily_cost_limit = some l ∧ l ≠ 0 ∧
        ((sig = .dailyCostExceeded ∧ s.daily_cost ≥ l) ∨
         (sig = .dailyCostWarning ∧ ¬s.daily_cost ≥ l ∧
           s.daily_cost ≥ l * t.warning_threshold)) := by
  unfold dailyCostSignals
  rcases h : t.daily_cost_limit with _ | l
  · simp
  · dsimp only
    split_ifs with h0 hex hw <;> simp_all

lemma mem_dailyTokenSignals (t : ThresholdConfig) (s : UsageStats) (sig : Signal) :
    sig ∈ dailyTokenSignals t s ↔
      ∃ l, t.daily_token_limit = some l ∧ l ≠ 0 ∧
        ((sig = .dailyTokenExceeded ∧ s.daily_input_tokens + s.daily_output_tokens ≥ l) ∨
         (sig = .dailyTokenWarning ∧ ¬s.daily_input_tokens + s.daily_output_tokens ≥ l ∧
           ((s.daily_input_tokens + s.daily_output_tokens : ℤ) : ℚ) ≥
             (l : ℚ) * t.warning_threshold)) := by
  unfold dailyTokenSignals
  rcases h : t.daily_token_limit with _ | l
  · simp
  · dsimp only
    split_ifs with h0 hex hw <;> simp_all

lemma mem_monthlyCostSignals (t : ThresholdConfig) (s : UsageStats) (sig : Signal) :
    sig ∈ monthlyCostSignals t s ↔
      ∃ l, t.monthly_cost_limit = some l ∧ l ≠ 0 ∧
        ((sig = .monthlyCostExceeded ∧ s.monthly_cost ≥ l) ∨
         (sig = .monthlyCostWarning ∧ ¬s.monthly_cost ≥ l ∧
           s.monthly_cost ≥ l * t.warning_threshold)) := by
  unfold monthlyCostSignals
  rcases h : t.monthly_cost_limit with _ | l
  · simp
  · dsimp only
    split_ifs with h0 hex hw <;> simp_all

lemma mem_monthlyTokenSignals (t : ThresholdConfig) (s : UsageStats) (sig : Signal) :
    sig ∈ monthlyTokenSignals t s ↔
      ∃ l, t.monthly_token_limit = some l ∧ l ≠ 0 ∧
        ((sig = .monthlyTokenExceeded ∧ s.monthly_input_tokens + s.monthly_output_tokens ≥ l) ∨
         (sig = .monthlyTokenWarning ∧ ¬s.monthly_input_tokens + s.monthly_output_tokens ≥ l ∧
           ((s.monthly_input_tokens + s.monthly_output_tokens : ℤ) : ℚ) ≥
             (l : ℚ) * t.warning_threshold)) := by
  unfold monthlyTokenSignals
  rcases h : t.monthly_token_limit with _ | l
  · simp
  · dsimp only
    split_ifs with h0 hex hw <;> simp_all

lemma mem_checkThresholds (t : ThresholdConfig) (s : UsageStats) (sig : Signal) :
    sig ∈ checkThresholds t s ↔
      sig ∈ dailyCostSignals t s ∨ sig ∈ dailyTokenSignals t s ∨
        sig ∈ monthlyCostSignals t s ∨ sig ∈ monthlyTokenSignals t s := by
  simp [checkThresholds]

/-- C3 (amended): for each of the four limits, `check_thresholds` emits the
exceeded signal iff the limit is configured to a nonzero value and the current
value is `>=` it, else the warning signal iff the current value is `>=`
`limit * warning_threshold`; a limit configured as `None` — or as `0`, which
Python truthiness treats identically — never produces a signal. -/
theorem threshold_signal_characterization (t : ThresholdConfig) (s : UsageStats) :
    (Signal.dailyCostExceeded ∈ checkThresholds t s ↔
      ∃ l, t.daily_cost_limit = some l ∧ l ≠ 0 ∧ s.daily_cost ≥ l) ∧
    (Signal.dailyCostWarning ∈ checkThresholds t s ↔
      ∃ l, t.daily_cost_limit = some l ∧ l ≠ 0 ∧ ¬s.daily_cost ≥ l ∧
        s.daily_cost ≥ l * t.warning_threshold) ∧
    (Signal.dailyTokenExceeded ∈ checkThresholds t s ↔
      ∃ l, t.daily_token_limit = some l ∧ l ≠ 0 ∧
        s.daily_input_tokens + s.daily_output_tokens ≥ l) ∧
    (Signal.dailyTokenWarning ∈ checkThresholds t s ↔
      ∃ l, t.daily_token_limit = some l ∧ l ≠ 0 ∧
        ¬s.daily_input_tokens + s.daily_output_tokens ≥ l ∧
        ((s.daily_input_tokens + s.daily_output_tokens : ℤ) : ℚ) ≥
          (l : ℚ) * t.warning_threshold) ∧
    (Signal.monthlyCostExceeded ∈ checkThresholds t s ↔
      ∃ l, t.monthly_cost_limit = some l ∧ l ≠ 0 ∧ s.monthly_cost ≥ l) ∧
    (Signal.monthlyCostWarning ∈ checkThresholds t s ↔
      ∃ l, t.monthly_cost_limit = some l ∧ l ≠ 0 ∧ ¬s.monthly_cost ≥ l ∧
        s.monthly_cost ≥ l * t.warning_threshold) ∧
    (Signal.monthlyTokenExceeded ∈ checkThresholds t s ↔
      ∃ l, t.monthly_token_limit = some l ∧ l ≠ 0 ∧
        s.monthly_input_tokens + s.monthly_output_tokens ≥ l) ∧
    (Signal.monthlyTokenWarning ∈ checkThresholds t s ↔
      ∃ l, t.monthly_token_limit = some l ∧ l ≠ 0 ∧
        ¬s.monthly_input_tokens + s.monthly_output_tokens ≥ l ∧
        ((s.monthly_input_tokens + s.monthly_output_tokens : ℤ) : ℚ) ≥
          (l : ℚ) * t.warning_threshold) := by
  refine ⟨?_, ?_, ?_, ?_, ?_, ?_, ?_, ?_⟩ <;>
    simp [mem_checkThresholds, mem_dailyCostSignals, mem_dailyTokenSignals,
      mem_monthlyCostSignals, mem_monthlyTokenSignals]

/-- Thresholds with the daily cost limit configured as `0`. -/
def tZero : ThresholdConfig := { daily_cost_limit := some 0 }

/-- C3 counterexample: with `daily_cost_limit` configured as `0` and a zeroed
ledger, the current value meets the configured limit (`0 >= 0`), yet
`check_thresholds` emits no signal at all — the claimed if-and-only-if fails
for a limit configured as `0`. -/
theorem zero_limit_meets_limit_no_signal :
    tZero.daily_cost_limit = some 0 ∧ ({} : UsageStats).daily_cost ≥ (0 : ℚ) ∧
    checkThresholds tZero {} = [] := by decide

lemma dailyCostSignals_sublist (t : ThresholdConfig) (s : UsageStats) :
    (dailyCostSignals t s).Sublist [Signal.dailyCostExceeded, Signal.dailyCostWarning] := by
  unfold dailyCostSignals
  rcases t.daily_cost_limit with _ | l
  · simp
  · dsimp only
    split_ifs <;> simp

lemma dailyTokenSignals_sublist (t : ThresholdConfig) (s : UsageStats) :
    (dailyTokenSignals t s).Sublist [Signal.dailyTokenExceeded, Signal.dailyTokenWarning] := by
  unfold dailyTokenSignals
  rcases t.daily_token_limit with _ | l
  · simp
  · dsimp only
    split_ifs <;> simp

lemma monthlyCostSignals_sublist (t : ThresholdConfig) (s : UsageStats) :
    (monthlyCostSignals t s).Sublist [Signal.monthlyCostExceeded, Signal.monthlyCostWarning] := by
  unfold monthlyCostSignals
  rcases t.monthly_cost_limit with _ | l
  · simp
  · dsimp only
    split_ifs <;> simp

lemma monthlyTokenSignals_sublist (t : ThresholdConfig) (s : UsageStats) :
    (monthlyTokenSignals t s).Sublist [Signal.monthlyTokenExceeded, Signal.monthlyTokenWarning] := by
  unfold monthlyTokenSignals
  rcases t.monthly_token_limit with _ | l
  · simp
  · dsimp only
    split_ifs <;> simp

/-- Thresholds for the signal-ordering counterexample: a daily token limit of
`10` and a monthly cost limit of `1`. -/
def t8 : ThresholdConfig := { monthly_cost_limit := some 1, daily_token_limit := some 10 }

/-- Ledger hitting both limits of `t8` at once. -/
def s8 : UsageStats := { daily_input_tokens := 10, monthly_cost := 1 }

/-- C8 counterexample: with both the daily token limit and the monthly cost
limit exceeded, `check_thresholds` lists the daily token signal first and the
dispatcher picks it as the primary violation — not the monthly cost signal the
claimed cost-before-units order predicts. -/
theorem signal_order_counterexample :
    checkThresholds t8 s8 = [Signal.dailyTokenExceeded, Signal.monthlyCostExceeded] ∧
    firstExceeded (checkThresholds t8 s8) = some Signal.dailyTokenExceeded ∧
    Signal.dailyTokenExceeded ≠ Signal.monthlyCostExceeded := by decide

/-- C8 (amended): the signal sequence is ordered daily before monthly, and
within each window cost before units — daily cost, daily units, monthly cost,
monthly units (with exceeded before warning per limit) — and the dispatcher
treats the first exceeded signal in that order as primary, so with both daily
units and monthly cost exceeded the daily-units signal is the primary
violation. -/
theorem signal_order (t : ThresholdConfig) (s : UsageStats) :
    (checkThresholds t s).Sublist
      [Signal.dailyCostExceeded, Signal.dailyCostWarning,
       Signal.dailyTokenExceeded, Signal.dailyTokenWarning,
       Signal.monthlyCostExceeded, Signal.monthlyCostWarning,
       Signal.monthlyTokenExceeded, Signal.monthlyTokenWarning] ∧
    firstExceeded (checkThresholds t8 s8) = some Signal.dailyTokenExceeded := by
  constructor
  · have h := List.Sublist.append (dailyCostSignals_sublist t s)
      (List.Sublist.append (dailyTokenSignals_sublist t s)
        (List.Sublist.append (monthlyCostSignals_sublist t s)
          (monthlyTokenSignals_sublist t s)))
    simpa [checkThresholds, List.append_assoc] using h
  · decide

/-- Whether the daily-cost block of `check_limits_before_request` denies the
request: a configured nonzero daily cost limit strictly exceeded (`>`) by the
projected daily cost. -/
def dailyCostTrigger (limit : Option ℚ) (s : UsageStats) (estimated_cost : ℚ) : Bool :=
  match limit with
  | none => false
  | some l => !decide (l = 0) && decide (s.daily_cost + estimated_cost > l)

/-- Whether the monthly-cost block of `check_limits_before_request` denies. -/
def monthlyCostTrigger (limit : Option ℚ) (s : UsageStats) (estimated_cost : ℚ) : Bool :=
  match limit with
  | none => false
  | some l => !decide (l = 0) && decide (s.monthly_cost + estimated_cost > l)

/-- Whether the daily-token block of `check_limits_before_request` denies. -/
def dailyTokenTrigger (limit : Option ℤ) (s : UsageStats) (estimated_tokens : ℤ) : Bool :=
  match limit with
  | none => false
  | some l => !decide (l = 0) &&
      decide (s.daily_input_tokens + s.daily_output_tokens + estimated_tokens > l)

/-- Whether the monthly-token block of `check_limits_before_request` denies. -/
def monthlyTokenTrigger (limit : Option ℤ) (s : UsageStats) (estimated_tokens : ℤ) : Bool :=
  match limit with
  | none => false
  | some l => !decide (l = 0) &&
      decide (s.monthly_input_tokens + s.monthly_output_tokens + estimated_tokens > l)

lemma checkDailyCostLimit_fst (limit : Option ℚ) (s : UsageStats) (ec : ℚ)
    (acc : Bool × List CheckWarning) :
    (checkDailyCostLimit limit s ec acc).1 = (acc.1 && !dailyCostTrigger limit s ec) := by
  unfold checkDailyCostLimit dailyCostTrigger
  rcases limit with _ | l
  · simp
  · dsimp only
    split_ifs <;> simp_all

lemma checkMonthlyCostLimit_fst (limit : Option ℚ) (s : UsageStats) (ec : ℚ)
    (acc : Bool × List CheckWarning) :
    (checkMonthlyCostLimit limit s ec acc).1 = (acc.1 && !monthlyCostTrigger limit s ec) := by
  unfold checkMonthlyCostLimit monthlyCostTrigger
  rcases limit with _ | l
  · simp
  · dsimp only
    split_ifs <;> simp_all

lemma checkDailyTokenLimit_fst (limit : Option ℤ) (s : UsageStats) (tk : ℤ)
    (acc : Bool × List CheckWarning) :
    (checkDailyTokenLimit limit s tk acc).1 = (acc.1 && !dailyTokenTrigger limit s tk) := by
  unfold checkDailyTokenLimit dailyTokenTrigger
  rcases limit with _ | l
  · simp
  · dsimp only
    split_ifs <;> simp_all

lemma checkMonthlyTokenLimit_fst (limit : Option ℤ) (s : UsageStats) (tk : ℤ)
    (acc : Bool × List CheckWarning) :
    (checkMonthlyTokenLimit limit s tk acc).1 = (acc.1 && !monthlyTokenTrigger limit s tk) := by
  unfold checkMonthlyTokenLimit monthlyTokenTrigger
  rcases limit with _ | l
  · simp
  · dsimp only
    split_ifs <;> simp_all

/-- End-to-end scenario B config: catalog entry `m` (input price `0.002`,
output price `0.004` per 1000 tokens), `daily_cost_limit = 1.0` and current
`daily_cost = 0.9`. -/
def cfgB : BillingConfig :=
  { models := [("m", modelM)],
    thresholds := { daily_cost_limit := some 1 },
    usage_stats := { daily_cost := 9 / 10 } }

/-- C2 counterexample: in scenario B the projected daily cost is exactly the
limit (`0.9 + 0.1 = 1.0`), but `check_limits_before_request` compares the
projection with a strict `>` — not the `>=` of commit-time evaluation — so the
request comes back `allowed = true` with no signal, not `allowed = false` with
one exceeded signal as claimed. -/
theorem check_boundary_counterexample :
    calculateCost cfgB "m" 50000 0 = 1 / 10 ∧
    cfgB.usage_stats.daily_cost + 1 / 10 = (1 : ℚ) ∧
    cfgB.thresholds.daily_cost_limit = some 1 ∧
    (checkLimitsBeforeRequest cfgB "m" 50000).1 =
      Except.ok (CheckOutcome.checked
        { allowed := true, warnings := [], estimated_cost := 1 / 10 }) := by
  refine ⟨?_, ?_, rfl, ?_⟩
  · norm_num [calculateCost, getModelConfig, cfgB, modelM, List.lookup]
  · norm_num [cfgB]
  · norm_num [checkLimitsBeforeRequest, cfgB, modelM, calculateCost, getModelConfig,
      List.lookup, checkDailyCostLimit, checkMonthlyCostLimit, checkDailyTokenLimit,
      checkMonthlyTokenLimit]

/-- C2 (amended): on an enabled config, `check_limits_before_request` denies
admission exactly when some projected value strictly exceeds (`>`) a
configured nonzero limit — not the `>=` rule of commit-time evaluation — so
in scenario B (`daily_cost_limit = 1.0`, `daily_cost = 0.9`, estimated cost
`0.1`) the projection equals the limit and the request is allowed with no
signals, the Ledger staying untouched. -/
theorem check_denial_characterization :
    (∀ (c : BillingConfig) (model_name : String) (tk : ℤ), c.enabled = true →
      ∃ r, (checkLimitsBeforeRequest c model_name tk).1 =
          Except.ok (CheckOutcome.checked r) ∧
        (r.allowed = false ↔
          (dailyCostTrigger c.thresholds.daily_cost_limit c.usage_stats
              (calculateCost c model_name tk 0) = true ∨
           monthlyCostTrigger c.thresholds.monthly_cost_limit c.usage_stats
              (calculateCost c model_name tk 0) = true ∨
           dailyTokenTrigger c.thresholds.daily_token_limit c.usage_stats tk = true ∨
           monthlyTokenTrigger c.thresholds.monthly_token_limit c.usage_stats tk = true))) ∧
    (checkLimitsBeforeRequest cfgB "m" 50000).1 =
      Except.ok (CheckOutcome.checked
        { allowed := true, warnings := [], estimated_cost := 1 / 10 }) ∧
    (checkLimitsBeforeRequest cfgB "m" 50000).2 = cfgB := by
  refine ⟨?_, ?_, rfl⟩
  · intro c model_name tk hc
    have hcond : ¬(c.enabled = false) := by simp [hc]
    unfold checkLimitsBeforeRequest
    rw [if_neg hcond]
    refine ⟨_, rfl, ?_⟩
    dsimp only
    simp only [checkMonthlyTokenLimit_fst, checkDailyTokenLimit_fst,
      checkMonthlyCostLimit_fst, checkDailyCostLimit_fst]
    cases hA : dailyCostTrigger c.thresholds.daily_cost_limit c.usage_stats
        (calculateCost c model_name tk 0) <;>
      cases hB : monthlyCostTrigger c.thresholds.monthly_cost_limit c.usage_stats
        (calculateCost c model_name tk 0) <;>
      cases hC : dailyTokenTrigger c.thresholds.daily_token_limit c.usage_stats tk <;>
      cases hD : monthlyTokenTrigger c.thresholds.monthly_token_limit c.usage_stats tk <;>
      simp
  · norm_num [checkLimitsBeforeRequest, cfgB, modelM, calculateCost, getModelConfig,
      List.lookup, checkDailyCostLimit, checkMonthlyCostLimit, checkDailyTokenLimit,
      checkMonthlyTokenLimit]

/-- Witness for C2's amended characterization, applied at scenario B. -/
theorem check_denial_characterization_witness :
    cfgB.enabled = true ∧
    ∃ r, (checkLimitsBeforeRequest cfgB "m" 50000).1 =
        Except.ok (CheckOutcome.checked r) ∧
      (r.allowed = false ↔
        (dailyCostTrigger cfgB.thresholds.daily_cost_limit cfgB.usage_stats
            (calculateCost cfgB "m" 50000 0) = true ∨
         monthlyCostTrigger cfgB.thresholds.monthly_cost_limit cfgB.usage_stats
            (calculateCost cfgB "m" 50000 0) = true ∨
         dailyTokenTrigger cfgB.thresholds.daily_token_limit cfgB.usage_stats 50000 = true ∨
         monthlyTokenTrigger cfgB.thresholds.monthly_token_limit cfgB.usage_stats 50000 = true)) :=
  ⟨rfl, check_denial_characterization.1 cfgB "m" 50000 rfl⟩

/-- Config for the negative-units probe: model `m` priced `1` per 1000 tokens
both ways, no limits configured. -/
def cfgNeg : BillingConfig :=
  { models := [("m", { name := "m", input_token_price := 1, output_token_price := 1 })] }

/-- C4: the code performs no validation of unit counts: `track_usage` with
`input_tokens = -100` returns successfully — no `InvalidUsageError` (which
exists nowhere in the code base) nor any other error — and silently records a
negative `daily_input_tokens`; `check_limits_before_request` likewise accepts
a negative estimate. -/
theorem negative_units_silently_accepted :
    (trackUsage epoch cfgNeg "m" (-100) 0).2 =
      Except.ok (TrackResult.tracked
        { model_name := "m", input_tokens := -100, output_tokens := 0,
          cost := -1 / 10, total_cost := -1 / 10, daily_cost := -1 / 10,
          monthly_cost := -1 / 10, warnings := [] }) ∧
    (trackUsage epoch cfgNeg "m" (-100) 0).1.usage_stats.daily_input_tokens = -100 ∧
    (checkLimitsBeforeRequest cfgNeg "m" (-5)).1 =
      Except.ok (CheckOutcome.checked
        { allowed := true, warnings := [], estimated_cost := -1 / 200 }) := by
  refine ⟨?_, rfl, ?_⟩
  · norm_num [trackUsage, cfgNeg, checkDailyReset, checkMonthlyReset, dateLt,
      monthRollCond, epoch, updateUsage, addUsage, calculateCost, getModelConfig,
      List.lookup, checkThresholds, dailyCostSignals, dailyTokenSignals,
      monthlyCostSignals, monthlyTokenSignals, raiseOr, handleThresholdWarnings,
      firstExceeded]
  · norm_num [checkLimitsBeforeRequest, cfgNeg, calculateCost, getModelConfig,
      List.lookup, checkDailyCostLimit, checkMonthlyCostLimit, checkDailyTokenLimit,
      checkMonthlyTokenLimit]

/-- Usage stats after the two roll checks inside `track_usage`. -/
def rolledStats (now : DateTime) (c : BillingConfig) : UsageStats :=
  (rolledConfig now c).usage_stats

/-- Usage stats right after the commit increment inside `track_usage`. -/
def postCommitStats (now : DateTime) (c : BillingConfig) (model_name : String)
    (i o : ℤ) : UsageStats :=
  (postCommitConfig now c model_name i o).usage_stats

/-- The `usage_info` dict as built inside `track_usage` on the commit path. -/
def trackInfo (now : DateTime) (c : BillingConfig) (model_name : String)
    (i o : ℤ) : UsageInfo :=
  { model_name := model_name
    input_tokens := i
    output_tokens := o
    cost := commitCost now c model_name i o
    total_cost := (postCommitConfig now c model_name i o).usage_stats.total_cost
    daily_cost := (postCommitConfig now c model_name i o).usage_stats.daily_cost
    monthly_cost := (postCommitConfig now c model_name i o).usage_stats.monthly_cost
    warnings := postSignals now c model_name i o }

lemma trackUsage_eq (now : DateTime) (c : BillingConfig) (model_name : String)
    (i o : ℤ) (h_en : c.enabled = true)
    (h_model : ((getModelConfig c model_name).isNone && !c.models.isEmpty) = false) :
    trackUsage now c model_name i o =
      raiseOr (postCommitConfig now c model_name i o)
        (postSignals now c model_name i o) (trackInfo now c model_name i o) := by
  have h1 : ¬(c.enabled = false) := by simp [h_en]
  have h2 : ¬(((getModelConfig c model_name).isNone && !c.models.isEmpty) = true) := by
    simp [h_model]
  unfold trackUsage
  rw [if_neg h1, if_neg h2]
  rfl

lemma raiseOr_fst (c2 : BillingConfig) (ws : List Signal) (info : UsageInfo) :
    (raiseOr c2 ws info).1 = c2 := by
  unfold raiseOr
  rcases handleThresholdWarnings c2 ws info with _ | e <;> rfl

lemma firstExceeded_spec {ws : List Signal} {sig : Signal}
    (h : firstExceeded ws = some sig) : sig ∈ ws ∧ sig.isExceeded = true := by
  unfold firstExceeded at h
  have hm : sig ∈ ws.filter Signal.isExceeded := by
    rcases hl : ws.filter Signal.isExceeded with _ | ⟨b, t⟩
    · rw [hl] at h
      simp at h
    · rw [hl] at h
      simp only [List.head?] at h
      simp at h
      subst h
      exact List.mem_cons_self _ _
  have hmf := List.mem_filter.mp hm
  exact ⟨hmf.1, hmf.2⟩

lemma postCommit_thresholds (now : DateTime) (c : BillingConfig)
    (model_name : String) (i o : ℤ) :
    (postCommitConfig now c model_name i o).thresholds = c.thresholds := by
  unfold postCommitConfig rolledConfig updateUsage checkMonthlyReset checkDailyReset
  dsimp only
  split_ifs <;> rfl

/-- C1: on an enabled monitor, when the post-commit ledger meets or exceeds a
configured hard limit, `track_usage` raises a `ThresholdExceededException`
carrying the violated threshold type, the current (post-commit) value and the
configured limit value, while the monitor's ledger keeps the just-committed
increment (committed-then-rejected); `check_limits_before_request` never
raises this (or any) error — it always returns an ordinary result. -/
theorem commit_exceeded_committed_then_rejected (now : DateTime)
    (c : BillingConfig) (model_name : String) (i o : ℤ)
    (h_en : c.enabled = true)
    (h_model : ((getModelConfig c model_name).isNone && !c.models.isEmpty) = false)
    (h_ex : (firstExceeded (postSignals now c model_name i o)).isSome = true) :
    (trackUsage now c model_name i o).1 = postCommitConfig now c model_name i o ∧
    ((postCommitStats now c model_name i o).total_input_tokens =
        (rolledStats now c).total_input_tokens + i ∧
     (postCommitStats now c model_name i o).total_output_tokens =
        (rolledStats now c).total_output_tokens + o ∧
     (postCommitStats now c model_name i o).total_cost =
        (rolledStats now c).total_cost + commitCost now c model_name i o ∧
     (postCommitStats now c model_name i o).daily_input_tokens =
        (rolledStats now c).daily_input_tokens + i ∧
     (postCommitStats now c model_name i o).daily_output_tokens =
        (rolledStats now c).daily_output_tokens + o ∧
     (postCommitStats now c model_name i o).daily_cost =
        (rolledStats now c).daily_cost + commitCost now c model_name i o ∧
     (postCommitStats now c model_name i o).monthly_input_tokens =
        (rolledStats now c).monthly_input_tokens + i ∧
     (postCommitStats now c model_name i o).monthly_output_tokens =
        (rolledStats now c).monthly_output_tokens + o ∧
     (postCommitStats now c model_name i o).monthly_cost =
        (rolledStats now c).monthly_cost + commitCost now c model_name i o ∧
     (postCommitStats now c model_name i o).total_requests =
        (rolledStats now c).total_requests + 1 ∧
     (postCommitStats now c model_name i o).daily_requests =
        (rolledStats now c).daily_requests + 1 ∧
     (postCommitStats now c model_name i o).monthly_requests =
        (rolledStats now c).monthly_requests + 1) ∧
    (∃ e, (trackUsage now c model_name i o).2 = Except.error e) ∧
    ((firstExceeded (postSignals now c model_name i o) = some Signal.dailyCostExceeded →
      ∃ l, c.thresholds.daily_cost_limit = some l ∧ l ≠ 0 ∧
        (postCommitStats now c model_name i o).daily_cost ≥ l ∧
        (trackUsage now c model_name i o).2 = Except.error
          (BillingError.thresholdExceeded "daily_cost"
            (postCommitStats now c model_name i o).daily_cost l)) ∧
     (firstExceeded (postSignals now c model_name i o) = some Signal.monthlyCostExceeded →
      ∃ l, c.thresholds.monthly_cost_limit = some l ∧ l ≠ 0 ∧
        (postCommitStats now c model_name i o).monthly_cost ≥ l ∧
        (trackUsage now c model_name i o).2 = Except.error
          (BillingError.thresholdExceeded "monthly_cost"
            (postCommitStats now c model_name i o).monthly_cost l)) ∧
     (firstExceeded (postSignals now c model_name i o) = some Signal.dailyTokenExceeded →
      ∃ l, c.thresholds.daily_token_limit = some l ∧ l ≠ 0 ∧
        (postCommitStats now c model_name i o).daily_input_tokens +
            (postCommitStats now c model_name i o).daily_output_tokens ≥ l ∧
        (trackUsage now c model_name i o).2 = Except.error
          (BillingError.thresholdExceeded "daily_token"
            (((postCommitStats now c model_name i o).daily_input_tokens +
              (postCommitStats now c model_name i o).daily_output_tokens : ℤ) : ℚ)
            (l : ℚ))) ∧
     (firstExceeded (postSignals now c model_name i o) = some Signal.monthlyTokenExceeded →
      ∃ l, c.thresholds.monthly_token_limit = some l ∧ l ≠ 0 ∧
        (postCommitStats now c model_name i o).monthly_input_tokens +
            (postCommitStats now c model_name i o).monthly_output_tokens ≥ l ∧
        (trackUsage now c model_name i o).2 = Except.error
          (BillingError.thresholdExceeded "monthly_token"
            (((postCommitStats now c model_name i o).monthly_input_tokens +
              (postCommitStats now c model_name i o).monthly_output_tokens : ℤ) : ℚ)
            (l : ℚ)))) ∧
    (∀ (c2 : BillingConfig) (m2 : String) (tk : ℤ),
      ((checkLimitsBeforeRequest c2 m2 tk).1).isOk = true) := by
  have hEq := trackUsage_eq now c model_name i o h_en h_model
  refine ⟨by rw [hEq, raiseOr_fst], ⟨rfl, rfl, rfl, rfl, rfl, rfl, rfl, rfl, rfl, rfl, rfl, rfl⟩,
    ?_, ⟨?_, ?_, ?_, ?_⟩, ?_⟩
  · rcases hfe : firstExceeded (postSignals now c model_name i o) with _ | sig
    · rw [hfe] at h_ex
      simp at h_ex
    · have hsx := (firstExceeded_spec hfe).2
      rw [hEq]
      unfold raiseOr handleThresholdWarnings
      rw [hfe]
      cases sig <;> first
        | exact ⟨_, rfl⟩
        | simp [Signal.isExceeded] at hsx
  · intro hfe
    have hmem := (firstExceeded_spec hfe).1
    unfold postSignals at hmem
    rw [mem_checkThresholds, postCommit_thresholds] at hmem
    rcases hmem with h1 | h1 | h1 | h1
    · obtain ⟨l, hl, hl0, hcase⟩ := (mem_dailyCostSignals _ _ _).mp h1
      rcases hcase with ⟨_, hge⟩ | ⟨habs, _⟩
      · refine ⟨l, hl, hl0, hge, ?_⟩
        rw [hEq]
        unfold raiseOr handleThresholdWarnings
        rw [hfe]
        dsimp only
        rw [postCommit_thresholds, hl]
        rfl
      · simp at habs
    · simp [mem_dailyTokenSignals] at h1
    · simp [mem_monthlyCostSignals] at h1
    · simp [mem_monthlyTokenSignals] at h1
  · intro hfe
    have hmem := (firstExceeded_spec hfe).1
    unfold postSignals at hmem
    rw [mem_checkThresholds, postCommit_thresholds] at hmem
    rcases hmem with h1 | h1 | h1 | h1
    · simp [mem_dailyCostSignals] at h1
    · simp [mem_dailyTokenSignals] at h1
    · obtain ⟨l, hl, hl0, hcase⟩ := (mem_monthlyCostSignals _ _ _).mp h1
      rcases hcase with ⟨_, hge⟩ | ⟨habs, _⟩
      · refine ⟨l, hl, hl0, hge, ?_⟩
        rw [hEq]
        unfold raiseOr handleThresholdWarnings
        rw [hfe]
        dsimp only
        rw [postCommit_thresholds, hl]
        rfl
      · simp at habs
    · simp [mem_monthlyTokenSignals] at h1
  · intro hfe
    have hmem := (firstExceeded_spec hfe).1
    unfold postSignals at hmem
    rw [mem_checkThresholds, postCommit_thresholds] at hmem
    rcases hmem with h1 | h1 | h1 | h1
    · simp [mem_dailyCostSignals] at h1
    · obtain ⟨l, hl, hl0, hcase⟩ := (mem_dailyTokenSignals _ _ _).mp h1
      rcases hcase with ⟨_, hge⟩ | ⟨habs, _⟩
      · refine ⟨l, hl, hl0, hge, ?_⟩
        rw [hEq]
        unfold raiseOr handleThresholdWarnings
        rw [hfe]
        dsimp only
        rw [postCommit_thresholds, hl]
        rfl
      · simp at habs
    · simp [mem_monthlyCostSignals] at h1
    · simp [mem_monthlyTokenSignals] at h1
  · intro hfe
    have hmem := (firstExceeded_spec hfe).1
    unfold postSignals at hmem
    rw [mem_checkThresholds, postCommit_thresholds] at hmem
    rcases hmem with h1 | h1 | h1 | h1
    · simp [mem_dailyCostSignals] at h1
    · simp [mem_dailyTokenSignals] at h1
    · simp [mem_monthlyCostSignals] at h1
    · obtain ⟨l, hl, hl0, hcase⟩ := (mem_monthlyTokenSignals _ _ _).mp h1
      rcases hcase with ⟨_, hge⟩ | ⟨habs, _⟩
      · refine ⟨l, hl, hl0, hge, ?_⟩
        rw [hEq]
        unfold raiseOr handleThresholdWarnings
        rw [hfe]
        dsimp only
        rw [postCommit_thresholds, hl]
        rfl
      · simp at habs
  · intro c2 m2 tk
    unfold checkLimitsBeforeRequest
    split <;> rfl

/-- Config for the C1 witness: model `m` priced `1` per 1000 tokens both ways
and a daily cost limit of `1`. -/
def cfg1 : BillingConfig :=
  { models := [("m", { name := "m", input_token_price := 1, output_token_price := 1 })],
    thresholds := { daily_cost_limit := some 1 } }

/-- Witness for C1: committing 2000 input tokens at price `1`/1000 drives the
daily cost to `2`, past the limit `1`, so the call errors while the returned
config is the post-commit state. -/
theorem commit_exceeded_witness :
    cfg1.enabled = true ∧
    ((getModelConfig cfg1 "m").isNone && !cfg1.models.isEmpty) = false ∧
    (firstExceeded (postSignals epoch cfg1 "m" 2000 0)).isSome = true ∧
    (trackUsage epoch cfg1 "m" 2000 0).1 = postCommitConfig epoch cfg1 "m" 2000 0 ∧
    (∃ e, (trackUsage epoch cfg1 "m" 2000 0).2 = Except.error e) := by
  have hex : (firstExceeded (postSignals epoch cfg1 "m" 2000 0)).isSome = true := by
    norm_num [postSignals, postCommitConfig, rolledConfig, cfg1, checkDailyReset,
      checkMonthlyReset, dateLt, monthRollCond, epoch, updateUsage, addUsage,
      calculateCost, getModelConfig, List.lookup, checkThresholds, dailyCostSignals,
      dailyTokenSignals, monthlyCostSignals, monthlyTokenSignals, firstExceeded,
      Signal.isExceeded]
  have h := commit_exceeded_committed_then_rejected epoch cfg1 "m" 2000 0 rfl rfl hex
  exact ⟨rfl, rfl, hex, h.1, h.2.2.1⟩

/-- Ledger operations for claim C5: commits, the two window-roll checks, and
the three resets dispatched by `ConfigManager.reset_usage_stats`. -/
inductive LedgerOp where
  | commit (model_name : String) (input_tokens output_tokens : ℤ)
  | rollDaily (now : DateTime)
  | rollMonthly (now : DateTime)
  | resetDaily (now : DateTime)
  | resetMonthly (now : DateTime)
  | resetAll (now : DateTime)
deriving DecidableEq

/-- Apply one ledger operation to a config. -/
def applyOp (c : BillingConfig) : LedgerOp → BillingConfig
  | .commit model_name i o => (updateUsage c model_name i o).1
  | .rollDaily now => checkDailyReset now c
  | .rollMonthly now => checkMonthlyReset now c
  | .resetDaily now => { c with usage_stats := resetDailyStats now c.usage_stats }
  | .resetMonthly now => { c with usage_stats := resetMonthlyStats now c.usage_stats }
  | .resetAll now => { c with usage_stats := resetAllStats now c.usage_stats }

/-- Run a sequence of ledger operations left to right. -/
def runOps (c : BillingConfig) (ops : List LedgerOp) : BillingConfig :=
  ops.foldl applyOp c

/-- A commit carries non-negative token counts; every other operation is
unrestricted. -/
def LedgerOp.nonNegUnits : LedgerOp → Bool
  | .commit _ i o => decide (0 ≤ i) && decide (0 ≤ o)
  | _ => true

/-- Every price in the catalog is non-negative. -/
def nonNegPrices (c : BillingConfig) : Prop :=
  ∀ p ∈ c.models, 0 ≤ p.2.input_token_price ∧ 0 ≤ p.2.output_token_price

/-- All thirteen numeric counters are zero (reset timestamps unconstrained). -/
def ZeroCounters (s : UsageStats) : Prop :=
  s.total_input_tokens = 0 ∧ s.total_output_tokens = 0 ∧ s.total_cost = 0 ∧
  s.daily_input_tokens = 0 ∧ s.daily_output_tokens = 0 ∧ s.daily_cost = 0 ∧
  s.monthly_input_tokens = 0 ∧ s.monthly_output_tokens = 0 ∧ s.monthly_cost = 0 ∧
  s.request_count = 0 ∧ s.total_requests = 0 ∧ s.daily_requests = 0 ∧
  s.monthly_requests = 0

/-- Inductive invariant: all counters non-negative, and every daily/monthly
counter bounded by its lifetime counterpart. -/
def StatsInv (s : UsageStats) : Prop :=
  0 ≤ s.total_input_tokens ∧ 0 ≤ s.total_output_tokens ∧ 0 ≤ s.total_cost ∧
  0 ≤ s.daily_input_tokens ∧ 0 ≤ s.daily_output_tokens ∧ 0 ≤ s.daily_cost ∧
  0 ≤ s.monthly_input_tokens ∧ 0 ≤ s.monthly_output_tokens ∧ 0 ≤ s.monthly_cost ∧
  s.daily_input_tokens ≤ s.total_input_tokens ∧
  s.daily_output_tokens ≤ s.total_output_tokens ∧
  s.daily_cost ≤ s.total_cost ∧
  s.daily_requests ≤ s.total_requests ∧
  s.daily_requests ≤ s.request_count ∧
  s.monthly_input_tokens ≤ s.total_input_tokens ∧
  s.monthly_output_tokens ≤ s.total_output_tokens ∧
  s.monthly_cost ≤ s.total_cost ∧
  s.monthly_requests ≤ s.total_requests ∧
  s.monthly_requests ≤ s.request_count

lemma lookup_mem_value {l : List (String × ModelConfig)} {k : String} {v : ModelConfig}
    (h : l.lookup k = some v) : ∃ p ∈ l, p.2 = v := by
  induction l with
  | nil => simp [List.lookup] at h
  | cons a t ih =>
    obtain ⟨k1, v1⟩ := a
    rw [List.lookup] at h
    cases hbe : (k == k1)
    · rw [hbe] at h
      obtain ⟨p, hp, hv⟩ := ih h
      exact ⟨p, List.mem_cons_of_mem _ hp, hv⟩
    · rw [hbe] at h
      simp at h
      exact ⟨(k1, v1), List.mem_cons_self _ _, h⟩

lemma calculateCost_nonneg (c : BillingConfig) (model_name : String) {i o : ℤ}
    (hp : nonNegPrices c) (hi : 0 ≤ i) (ho : 0 ≤ o) :
    0 ≤ calculateCost c model_name i o := by
  unfold calculateCost
  rcases h : getModelConfig c model_name with _ | mc
  · dsimp only
    exact le_refl 0
  · dsimp only
    obtain ⟨p, hpmem, hpv⟩ := lookup_mem_value h
    obtain ⟨hpi, hpo⟩ := hp p hpmem
    rw [hpv] at hpi hpo
    have hqi : (0 : ℚ) ≤ (i : ℚ) / 1000 :=
      div_nonneg (by exact_mod_cast hi) (by norm_num)
    have hqo : (0 : ℚ) ≤ (o : ℚ) / 1000 :=
      div_nonneg (by exact_mod_cast ho) (by norm_num)
    exact add_nonneg (mul_nonneg hqi hpi) (mul_nonneg hqo hpo)

lemma statsInv_addUsage {s : UsageStats} {i o : ℤ} {cost : ℚ} (h : StatsInv s)
    (hi : 0 ≤ i) (ho : 0 ≤ o) (hc : 0 ≤ cost) : StatsInv (addUsage s i o cost) := by
  obtain ⟨n1, n2, n3, n4, n5, n6, n7, n8, n9,
    d1, d2, d3, d4, d5, m1, m2, m3, m4, m5⟩ := h
  refine ⟨?_, ?_, ?_, ?_, ?_, ?_, ?_, ?_, ?_, ?_, ?_, ?_, ?_, ?_, ?_, ?_, ?_, ?_, ?_⟩ <;>
    simp only [addUsage] <;> first | omega | linarith

lemma statsInv_resetDaily {s : UsageStats} (now : DateTime) (h : StatsInv s) :
    StatsInv (resetDailyStats now s) := by
  obtain ⟨n1, n2, n3, n4, n5, n6, n7, n8, n9,
    d1, d2, d3, d4, d5, m1, m2, m3, m4, m5⟩ := h
  refine ⟨?_, ?_, ?_, ?_, ?_, ?_, ?_, ?_, ?_, ?_, ?_, ?_, ?_, ?_, ?_, ?_, ?_, ?_, ?_⟩ <;>
    simp only [resetDailyStats] <;> first | omega | linarith

lemma statsInv_resetMonthly {s : UsageStats} (now : DateTime) (h : StatsInv s) :
    StatsInv (resetMonthlyStats now s) := by
  obtain ⟨n1, n2, n3, n4, n5, n6, n7, n8, n9,
    d1, d2, d3, d4, d5, m1, m2, m3, m4, m5⟩ := h
  refine ⟨?_, ?_, ?_, ?_, ?_, ?_, ?_, ?_, ?_, ?_, ?_, ?_, ?_, ?_, ?_, ?_, ?_, ?_, ?_⟩ <;>
    simp only [resetMonthlyStats] <;> first | omega | linarith

lemma statsInv_resetAll {s : UsageStats} (now : DateTime) :
    StatsInv (resetAllStats now s) := by
  refine ⟨?_, ?_, ?_, ?_, ?_, ?_, ?_, ?_, ?_, ?_, ?_, ?_, ?_, ?_, ?_, ?_, ?_, ?_, ?_⟩ <;>
    simp [resetAllStats]

lemma applyOp_models (c : BillingConfig) (op : LedgerOp) :
    (applyOp c op).models = c.models := by
  cases op
  case commit => rfl
  case rollDaily =>
    unfold applyOp checkDailyReset
    dsimp only
    split_ifs <;> rfl
  case rollMonthly =>
    unfold applyOp checkMonthlyReset
    dsimp only
    split_ifs <;> rfl
  case resetDaily => rfl
  case resetMonthly => rfl
  case resetAll => rfl

lemma statsInv_applyOp {c : BillingConfig} {op : LedgerOp} (h : StatsInv c.usage_stats)
    (hp : nonNegPrices c) (hv : op.nonNegUnits = true) :
    StatsInv (applyOp c op).usage_stats := by
  cases op with
  | commit model_name i o =>
    simp only [LedgerOp.nonNegUnits, Bool.and_eq_true, decide_eq_true_eq] at hv
    exact statsInv_addUsage h hv.1 hv.2 (calculateCost_nonneg c model_name hp hv.1 hv.2)
  | rollDaily now =>
    unfold applyOp checkDailyReset
    dsimp only
    split_ifs
    · exact statsInv_resetDaily now h
    · exact h
  | rollMonthly now =>
    unfold applyOp checkMonthlyReset
    dsimp only
    split_ifs
    · exact statsInv_resetMonthly now h
    · exact h
  | resetDaily now => exact statsInv_resetDaily now h
  | resetMonthly now => exact statsInv_resetMonthly now h
  | resetAll now =>
    show StatsInv (resetAllStats now c.usage_stats)
    exact statsInv_resetAll now

lemma runOps_inv : ∀ (ops : List LedgerOp) (c : BillingConfig),
    StatsInv c.usage_stats → nonNegPrices c →
    (∀ op ∈ ops, op.nonNegUnits = true) → StatsInv (runOps c ops).usage_stats := by
  intro ops
  induction ops with
  | nil =>
    intro c h _ _
    exact h
  | cons op t ih =>
    intro c h hp hv
    have hp2 : nonNegPrices (applyOp c op) := by
      unfold nonNegPrices
      rw [applyOp_models]
      exact hp
    have h2 := statsInv_applyOp h hp (hv op (by simp))
    have hv2 : ∀ x ∈ t, x.nonNegUnits = true := fun x hx => hv x (by simp [hx])
    simpa [runOps, List.foldl_cons] using ih (applyOp c op) h2 hp2 hv2

/-- C5: from a zeroed ledger, after any sequence of commits with non-negative
token counts (priced by a catalog with non-negative prices) interleaved with
daily/monthly rollovers and daily/monthly/all resets, `daily_cost <= total_cost`
and `monthly_cost <= total_cost`, and analogously the daily/monthly input
token, output token and request counters never exceed their lifetime
counterparts. -/
theorem ledger_window_invariants (c : BillingConfig) (ops : List LedgerOp)
    (h0 : ZeroCounters c.usage_stats) (hp : nonNegPrices c)
    (hv : ∀ op ∈ ops, op.nonNegUnits = true) :
    (runOps c ops).usage_stats.daily_cost ≤ (runOps c ops).usage_stats.total_cost ∧
    (runOps c ops).usage_stats.monthly_cost ≤ (runOps c ops).usage_stats.total_cost ∧
    (runOps c ops).usage_stats.daily_input_tokens ≤
      (runOps c ops).usage_stats.total_input_tokens ∧
    (runOps c ops).usage_stats.monthly_input_tokens ≤
      (runOps c ops).usage_stats.total_input_tokens ∧
    (runOps c ops).usage_stats.daily_output_tokens ≤
      (runOps c ops).usage_stats.total_output_tokens ∧
    (runOps c ops).usage_stats.monthly_output_tokens ≤
      (runOps c ops).usage_stats.total_output_tokens ∧
    (runOps c ops).usage_stats.daily_requests ≤
      (runOps c ops).usage_stats.total_requests ∧
    (runOps c ops).usage_stats.monthly_requests ≤
      (runOps c ops).usage_stats.total_requests := by
  have hInv0 : StatsInv c.usage_stats := by
    obtain ⟨e1, e2, e3, e4, e5, e6, e7, e8, e9, e10, e11, e12, e13⟩ := h0
    refine ⟨?_, ?_, ?_, ?_, ?_, ?_, ?_, ?_, ?_, ?_, ?_, ?_, ?_, ?_, ?_, ?_, ?_, ?_, ?_⟩ <;>
      simp_all
  obtain ⟨n1, n2, n3, n4, n5, n6, n7, n8, n9,
    d1, d2, d3, d4, d5, m1, m2, m3, m4, m5⟩ := runOps_inv ops c hInv0 hp hv
  exact ⟨d3, m3, d1, m1, d2, m2, d4, m4⟩

/-- Config for the C5 witness: model `m` priced `1`/1000 both ways, fresh
(zeroed) ledger. -/
def cfg5 : BillingConfig :=
  { models := [("m", { name := "m", input_token_price := 1, output_token_price := 1 })] }

/-- Operation sequence for the C5 witness: two commits around a daily
rollover, a monthly reset and a final commit. -/
def ops5 : List LedgerOp :=
  [LedgerOp.commit "m" 5 5, LedgerOp.rollDaily ⟨2024, 1, 2⟩,
   LedgerOp.resetMonthly ⟨2024, 1, 2⟩, LedgerOp.commit "m" 1 0]

/-- Witness for C5 on a concrete config and operation sequence. -/
theorem ledger_window_invariants_witness :
    ZeroCounters cfg5.usage_stats ∧ nonNegPrices cfg5 ∧
    (∀ op ∈ ops5, op.nonNegUnits = true) ∧
    ((runOps cfg5 ops5).usage_stats.daily_cost ≤
        (runOps cfg5 ops5).usage_stats.total_cost ∧
      (runOps cfg5 ops5).usage_stats.monthly_cost ≤
        (runOps cfg5 ops5).usage_stats.total_cost ∧
      (runOps cfg5 ops5).usage_stats.daily_input_tokens ≤
        (runOps cfg5 ops5).usage_stats.total_input_tokens ∧
      (runOps cfg5 ops5).usage_stats.monthly_input_tokens ≤
        (runOps cfg5 ops5).usage_stats.total_input_tokens ∧
      (runOps cfg5 ops5).usage_stats.daily_output_tokens ≤
        (runOps cfg5 ops5).usage_stats.total_output_tokens ∧
      (runOps cfg5 ops5).usage_stats.monthly_output_tokens ≤
        (runOps cfg5 ops5).usage_stats.total_output_tokens ∧
      (runOps cfg5 ops5).usage_stats.daily_requests ≤
        (runOps cfg5 ops5).usage_stats.total_requests ∧
      (runOps cfg5 ops5).usage_stats.monthly_requests ≤
        (runOps cfg5 ops5).usage_stats.total_requests) := by
  have h0 : ZeroCounters cfg5.usage_stats :=
    ⟨rfl, rfl, rfl, rfl, rfl, rfl, rfl, rfl, rfl, rfl, rfl, rfl, rfl⟩
  have hp : nonNegPrices cfg5 := by
    unfold nonNegPrices
    decide
  have hv : ∀ op ∈ ops5, op.nonNegUnits = true := by decide
  exact ⟨h0, hp, hv, ledger_window_invariants cfg5 ops5 h0 hp hv⟩

end OpenAIBilling
